import Mathlib

/-!
Verification of the ladybug multi-axis scanner (4steppergui_re-comment.py).

Shallow embedding of the scanner's core: axis movement and absolute
positioning (MoveX/Y/Z/R, XGoTo/YGoTo/ZGoTo/RGoTo), homing (HomeX),
the scan grid generator (DefineScan) and the scan execution engine
(GridScan) with its capture-retry, checkpoint and restart logic.

Modelling conventions:
  - The four global position counters GlobalX/Y/Z/R become a `Machine`
    record threaded explicitly.
  - A Move* call returns the updated machine together with the number of
    step pulses it issued (the length of its GPIO pulse loop).
  - GPIO limit-switch reads are an oracle `press : Nat -> Bool` consumed
    one read at a time (`press t = true` models `GPIO.input == False`,
    i.e. the switch is pressed); `CheckPress` performs the source's
    two debounced reads.
  - Each fswebcam capture attempt consults an oracle
    `o : Nat -> CaptureResult` at a running attempt counter; `success`
    models "output file exists", `failure` models a clean failure
    (communicate returned, no file), `hang` models
    `subprocess.TimeoutExpired` from the bounded 10-second wait.
  - `time.time()` timestamps are modelled by the attempt counter.
  - GridScan's observable behaviour is a list of events: one `visit`
    per loop iteration (the four goTo commands plus capture handling for
    that coordinate), a `checkpointWrite` for the single pickle.dump of
    `[UpdatedScanLocations, conditions]`, a `restart` for the
    `restart()` system call (which reboots the host, ending the run),
    and a `scanComplete` carrying the completion statistics printed at
    the end (original picture count and restart count).
-/

/-! ## Hardware constants (module level constants of the source) -/

def XMax : ℕ := 1800
def YMax : ℕ := 2000
def ZMax : ℕ := 3000
def StepsPerRotation : ℕ := 160

def XFORWARD : ℕ := 1
def XBACKWARD : ℕ := 0
def YFORWARD : ℕ := 1
def YBACKWARD : ℕ := 0
def ZFORWARD : ℕ := 1
def ZBACKWARD : ℕ := 0
def RFORWARD : ℕ := 1
def RBACKWARD : ℕ := 0

/-! ## Axis driver: MoveX/MoveY/MoveZ/MoveR and the goTo functions -/

/-- The four global position counters GlobalX, GlobalY, GlobalZ, GlobalR. -/
structure Machine where
  x : ℤ
  y : ℤ
  z : ℤ
  r : ℤ
deriving DecidableEq

/-- MoveX: issues `numsteps` pulses, then GlobalX += numsteps if
direction == XFORWARD else GlobalX -= numsteps.  Second component is the
number of step pulses issued. -/
def MoveX (direction : ℕ) (numsteps : ℕ) (m : Machine) : Machine × ℕ :=
  if direction = XFORWARD then ({ m with x := m.x + (numsteps : ℤ) }, numsteps)
  else ({ m with x := m.x - (numsteps : ℤ) }, numsteps)

/-- MoveY: same shape as MoveX, updating GlobalY. -/
def MoveY (direction : ℕ) (numsteps : ℕ) (m : Machine) : Machine × ℕ :=
  if direction = YFORWARD then ({ m with y := m.y + (numsteps : ℤ) }, numsteps)
  else ({ m with y := m.y - (numsteps : ℤ) }, numsteps)

/-- MoveZ: same shape as MoveX, updating GlobalZ. -/
def MoveZ (direction : ℕ) (numsteps : ℕ) (m : Machine) : Machine × ℕ :=
  if direction = ZFORWARD then ({ m with z := m.z + (numsteps : ℤ) }, numsteps)
  else ({ m with z := m.z - (numsteps : ℤ) }, numsteps)

/-- MoveR: issues `numsteps` pulses but, unlike the other axes, performs
no update of the global rotation counter: the source's position-update
block is absent ("Missing position update code that other axes have"). -/
def MoveR (direction : ℕ) (numsteps : ℕ) (m : Machine) : Machine × ℕ :=
  if direction = RFORWARD then (m, numsteps) else (m, numsteps)

/-- Result of a goTo call: either a move of `pulses` step pulses was
issued, or the destination was reported out of range and nothing moved
(the source prints "Destination out of range" and returns). -/
inductive GoToResult where
  | moved (pulses : ℕ)
  | outOfRange
deriving DecidableEq

/-- XGoTo: if XDest <= XMax and XDest >= XMin, move by
distance = XDest - GlobalX (forward if positive, else backward by
abs(distance)); otherwise out of range. -/
def XGoTo (XDest : ℤ) (XMin : ℤ) (m : Machine) : Machine × GoToResult :=
  if XDest ≤ (XMax : ℤ) ∧ XMin ≤ XDest then
    let distance := XDest - m.x
    if 0 < distance then
      let mv := MoveX XFORWARD distance.toNat m
      (mv.1, GoToResult.moved mv.2)
    else
      let mv := MoveX XBACKWARD distance.natAbs m
      (mv.1, GoToResult.moved mv.2)
  else (m, GoToResult.outOfRange)

/-- YGoTo: as XGoTo with YMax / GlobalY. -/
def YGoTo (YDest : ℤ) (YMin : ℤ) (m : Machine) : Machine × GoToResult :=
  if YDest ≤ (YMax : ℤ) ∧ YMin ≤ YDest then
    let distance := YDest - m.y
    if 0 < distance then
      let mv := MoveY YFORWARD distance.toNat m
      (mv.1, GoToResult.moved mv.2)
    else
      let mv := MoveY YBACKWARD distance.natAbs m
      (mv.1, GoToResult.moved mv.2)
  else (m, GoToResult.outOfRange)

/-- ZGoTo: as XGoTo with ZMax / GlobalZ. -/
def ZGoTo (ZDest : ℤ) (ZMin : ℤ) (m : Machine) : Machine × GoToResult :=
  if ZDest ≤ (ZMax : ℤ) ∧ ZMin ≤ ZDest then
    let distance := ZDest - m.z
    if 0 < distance then
      let mv := MoveZ ZFORWARD distance.toNat m
      (mv.1, GoToResult.moved mv.2)
    else
      let mv := MoveZ ZBACKWARD distance.natAbs m
      (mv.1, GoToResult.moved mv.2)
  else (m, GoToResult.outOfRange)

/-- RGoTo: range test is `RDest <= StepsPerRotation and RDest >= RMin`
(upper bound inclusive); the move is MoveR which never updates the
rotation counter. -/
def RGoTo (RDest : ℤ) (RMin : ℤ) (m : Machine) : Machine × GoToResult :=
  if RDest ≤ (StepsPerRotation : ℤ) ∧ RMin ≤ RDest then
    let distance := RDest - m.r
    if 0 < distance then
      let mv := MoveR RFORWARD distance.toNat m
      (mv.1, GoToResult.moved mv.2)
    else
      let mv := MoveR RBACKWARD distance.natAbs m
      (mv.1, GoToResult.moved mv.2)
  else (m, GoToResult.outOfRange)

/-! ## Homing controller (HomeX) -/

/-- CheckPress: read the pin; if pressed, debounce-sleep and read again,
returning true only if still pressed.  `press` is the per-read sensor
oracle, `t` the read counter; returns the verdict and the new counter. -/
def CheckPress (press : ℕ → Bool) (t : ℕ) : Bool × ℕ :=
  if press t then (press (t + 1), t + 2) else (false, t + 1)

/-- Inner bounce-confirm loop of HomeX: `for j in range(350)`, checking
the switch then stepping one back; on re-trip set GlobalX = 0 and return
the outer counter `i`. -/
def homeXInner (press : ℕ → Bool) (i : ℕ) (fuel t : ℕ) (m : Machine) :
    Option ℕ × Machine × ℕ :=
  match fuel with
  | 0 => (none, m, t)
  | j + 1 =>
    let ct := CheckPress press t
    if ct.1 then (some i, { m with x := 0 }, ct.2)
    else homeXInner press i j ct.2 (MoveX XBACKWARD 1 m).1

/-- Outer seek loop of HomeX: `for i in range(XMax + 200)`; on a trip,
move 300 forward and run the bounce-confirm loop; whether or not the
trip confirmed, fall through to one coarse backward step. -/
def homeXOuter (press : ℕ → Bool) (fuel i t : ℕ) (m : Machine) :
    Option ℕ × Machine × ℕ :=
  match fuel with
  | 0 => (none, m, t)
  | k + 1 =>
    let ct := CheckPress press t
    if ct.1 then
      let m1 := (MoveX XFORWARD 300 m).1
      match homeXInner press i 350 ct.2 m1 with
      | (some res, m2, t2) => (some res, m2, t2)
      | (none, m2, t2) => homeXOuter press k (i + 1) t2 (MoveX XBACKWARD 1 m2).1
    else homeXOuter press k (i + 1) ct.2 (MoveX XBACKWARD 1 m).1

/-- HomeX: seek the X limit switch for at most XMax + 200 coarse steps.
Returns `some i` (the coarse step count, with GlobalX set to 0) on a
confirmed home, `none` when the bound is exhausted (the source's
implicit None return), plus the machine and sensor-read counter. -/
def HomeX (press : ℕ → Bool) (m : Machine) : Option ℕ × Machine × ℕ :=
  homeXOuter press (XMax + 200) 0 0 m

/-! ## Scan grid generator (DefineScan) -/

/-- Number of points of numpy's `arange(start, stop, step)` for a
positive step: ceil((stop - start) / step), clamped at zero.  The
source only ever calls arange with positive steps; numpy raises on a
zero step, which has no counterpart here. -/
def arangeLen (start stop step : ℤ) : ℕ :=
  if 0 < step then ((stop - start + step - 1).ediv step).toNat else 0

/-- numpy `arange(start, stop, step)`: start, start + step, ... below
stop. -/
def arange (start stop step : ℤ) : List ℤ :=
  (List.range (arangeLen start stop step)).map (fun k => start + step * (k : ℤ))

/-- The dictionary returned by DefineScan: one coordinate list per axis. -/
structure ScanLocations where
  X : List ℤ
  Y : List ℤ
  Z : List ℤ
  R : List ℤ
deriving DecidableEq

/-- DefineScan: build per-axis grids over [min, max] inclusive (max+1
passed to arange), serpentine the X-Y raster (X reversed on odd Y-row
index, `xgrid[::(-1)**i]`), replicate per Z, then per R.  The source's
replication loops index yscan (resp. NewYScan, NewZScan) up to
len(xscan) (resp. len(NewXScan)); those lists have exactly those
lengths, so whole-list replication is the same. -/
def defineScan (XMin XMax YMin YMax ZMin ZMax RMin RMax XSteps YSteps ZSteps RSteps : ℤ) :
    ScanLocations :=
  let XMax1 := XMax + 1
  let YMax1 := YMax + 1
  let ZMax1 := ZMax + 1
  let RMax1 := RMax + 1
  let xgrid := arange XMin XMax1 XSteps
  let ygrid := arange YMin YMax1 YSteps
  let zgrid := arange ZMin ZMax1 ZSteps
  let rgrid := arange RMin RMax1 RSteps
  let xscan := (ygrid.enum.map (fun p => if p.1 % 2 = 1 then xgrid.reverse else xgrid)).flatten
  let yscan := (ygrid.map (fun yi => List.replicate xgrid.length yi)).flatten
  let NewXScan := (zgrid.map (fun _ => xscan)).flatten
  let NewYScan := (zgrid.map (fun _ => yscan)).flatten
  let NewZScan := (zgrid.map (fun zi => List.replicate xscan.length zi)).flatten
  let NewNewXScan := (rgrid.map (fun _ => NewXScan)).flatten
  let NewNewYScan := (rgrid.map (fun _ => NewYScan)).flatten
  let NewNewZScan := (rgrid.map (fun _ => NewZScan)).flatten
  let NewNewRScan := (rgrid.map (fun ri => List.replicate NewXScan.length ri)).flatten
  ⟨NewNewXScan, NewNewYScan, NewNewZScan, NewNewRScan⟩

/-! ## Scan execution engine (GridScan) -/

/-- Python str.zfill for the strings produced by str(int): pad with
leading zeros to `width`, keeping a leading minus sign in front. -/
def zfill (s : String) (width : ℕ) : String :=
  let cs := s.toList
  if width ≤ cs.length then s
  else
    match cs with
    | '-' :: rest => String.mk ('-' :: (List.replicate (width - cs.length) '0' ++ rest))
    | _ => String.mk (List.replicate (width - cs.length) '0' ++ cs)

/-- The per-picture filename:
X....Y....Z....R...of...<filetype> with zero-padded coordinates. -/
def picName (x y z r : ℤ) (numRot : ℕ) (filetype : String) : String :=
  "X" ++ zfill (toString x) 4 ++ "Y" ++ zfill (toString y) 4 ++
  "Z" ++ zfill (toString z) 4 ++ "R" ++ zfill (toString r) 3 ++
  "of" ++ zfill (toString (numRot : ℤ)) 3 ++ filetype

/-- Outcome of one fswebcam attempt, supplied by the capture oracle. -/
inductive CaptureResult where
  | success
  | failure
  | hang
deriving DecidableEq

/-- Outcome of the `for w in range(3)` attempt loop for one coordinate:
`captured` (file appeared, break), `hungSkip` (TimeoutExpired escaped
the loop to the enclosing except which `continue`s to the next
coordinate), or `exhausted` (third clean failure: checkpoint and
restart). -/
inductive CoordResult where
  | captured
  | hungSkip
  | exhausted
deriving DecidableEq

/-- The attempt loop: up to 3 attempts, each consuming one oracle value;
a hang at any attempt aborts the loop immediately. -/
def tryCapture (o : ℕ → CaptureResult) (c : ℕ) : CoordResult × ℕ :=
  match o c with
  | CaptureResult.success => (CoordResult.captured, c + 1)
  | CaptureResult.hang => (CoordResult.hungSkip, c + 1)
  | CaptureResult.failure =>
    match o (c + 1) with
    | CaptureResult.success => (CoordResult.captured, c + 2)
    | CaptureResult.hang => (CoordResult.hungSkip, c + 2)
    | CaptureResult.failure =>
      match o (c + 2) with
      | CaptureResult.success => (CoordResult.captured, c + 3)
      | CaptureResult.hang => (CoordResult.hungSkip, c + 3)
      | CaptureResult.failure => (CoordResult.exhausted, c + 3)

/-- The `conditions` dictionary pickled on unrecoverable failure (and
consumed on resume), with exactly the source's keys. -/
structure Conditions where
  save_location : String
  R_Location : ℤ
  filetype : String
  resolution : String
  num_failures : ℕ
  original_pics : ℕ
  original_time : ℕ
  original_locations : ScanLocations
  failed_pics : List String
  failure_times : List ℕ
deriving DecidableEq

/-- The run-constant part of GridScan's state (set once at entry from
the default initialisation or from the restored conditions). -/
structure ScanCtx where
  save_location : String
  filetype : String
  resolution : String
  timeallowed : ℕ
  numRot : ℕ
  original_pics : ℕ
  original_time : ℕ
  original_locations : ScanLocations
deriving DecidableEq

/-- Observable events of a GridScan run.  `visit` stands for one main
loop iteration: the four goTo commands for that coordinate (the axis
position effects of goTo are modelled by the functions above and never
feed back into the loop's control flow) plus its capture handling. -/
inductive Event where
  | visit (x y z r : ℤ)
  | checkpointWrite (locs : ScanLocations) (conds : Conditions)
  | restart
  | scanComplete (original_pics num_failures : ℕ)
deriving DecidableEq

/-- True exactly on checkpointWrite events. -/
def Event.isCheckpointWrite : Event → Bool
  | Event.checkpointWrite _ _ => true
  | _ => false

/-- The second GridScan argument: 'default' for a fresh scan, or the
unpickled conditions of an interrupted one. -/
inductive StartConditions where
  | default
  | resume (conds : Conditions)

/-- One visit event per coordinate, in lockstep over the four lists. -/
def visitEvents : List ℤ → List ℤ → List ℤ → List ℤ → List Event
  | x :: Xs, y :: Ys, z :: Zs, r :: Rs =>
    Event.visit x y z r :: visitEvents Xs Ys Zs Rs
  | _, _, _, _ => []

/-- GridScan's main loop over the remaining coordinates.  On the third
clean capture failure for a coordinate: the remaining coordinate
suffix (including the failing coordinate) and the updated conditions
(num_failures + 1, the failing picture's name and timestamp appended)
are written in a single checkpoint, and the process restart ends the
run.  A hang skips to the next coordinate with the session unchanged. -/
def scanLoop (o : ℕ → CaptureResult) (F : ScanCtx) (Xs Ys Zs Rs : List ℤ)
    (nf : ℕ) (fp : List String) (ftimes : List ℕ) (c : ℕ) : List Event :=
  match Xs, Ys, Zs, Rs with
  | x :: Xs', y :: Ys', z :: Zs', r :: Rs' =>
    match tryCapture o c with
    | (CoordResult.captured, c') =>
      Event.visit x y z r :: scanLoop o F Xs' Ys' Zs' Rs' nf fp ftimes c'
    | (CoordResult.hungSkip, c') =>
      Event.visit x y z r :: scanLoop o F Xs' Ys' Zs' Rs' nf fp ftimes c'
    | (CoordResult.exhausted, c') =>
      let name := picName x y z r F.numRot F.filetype
      let updated : ScanLocations := ⟨x :: Xs', y :: Ys', z :: Zs', r :: Rs'⟩
      let conds : Conditions :=
        ⟨F.save_location, r, F.filetype, F.resolution, nf + 1, F.original_pics,
          F.original_time, F.original_locations, fp ++ [name], ftimes ++ [c']⟩
      [Event.visit x y z r, Event.checkpointWrite updated conds, Event.restart]
  | _, _, _, _ => [Event.scanComplete F.original_pics nf]

/-- GridScan: initialise the session (fresh defaults, or the restored
conditions with timeallowed forced to 0), then run the main loop from
attempt counter 0.  The initial pre-loop goTo calls to coordinate 0 do
not produce a loop iteration and no event. -/
def gridScan (o : ℕ → CaptureResult) (L : ScanLocations) (sc : StartConditions)
    (save_location : String) (start_time : ℕ) : List Event :=
  let F : ScanCtx :=
    match sc with
    | StartConditions.default =>
      ⟨save_location, ".jpg", "640x480", 30, L.R.dedup.length, L.X.length, start_time, L⟩
    | StartConditions.resume conds =>
      ⟨conds.save_location, conds.filetype, conds.resolution, 0, L.R.dedup.length,
        conds.original_pics, conds.original_time, conds.original_locations⟩
  match sc with
  | StartConditions.default => scanLoop o F L.X L.Y L.Z L.R 0 [] [] 0
  | StartConditions.resume conds =>
    scanLoop o F L.X L.Y L.Z L.R conds.num_failures conds.failed_pics conds.failure_times 0

/-- Concrete three-coordinate plan used by scenario instances. -/
def planW : ScanLocations := ⟨[10, 11, 12], [20, 20, 20], [0, 0, 0], [5, 5, 5]⟩

/-- Capture oracle: the first attempt succeeds, every later one fails
cleanly. -/
def oracleW : ℕ → CaptureResult :=
  fun j => if j = 0 then CaptureResult.success else CaptureResult.failure

/-- Capture oracle: every attempt succeeds. -/
def oracleOk : ℕ → CaptureResult := fun _ => CaptureResult.success

/-- Capture oracle: the first attempt fails cleanly, every later one
hangs past its bounded wait. -/
def oracleHW : ℕ → CaptureResult :=
  fun j => if j = 0 then CaptureResult.failure else CaptureResult.hang

/-- A concrete run-constant scan context. -/
def ctxW : ScanCtx := ⟨"save", ".jpg", "640x480", 30, 1, 1, 0, ⟨[7], [8], [9], [5]⟩⟩

/-! ## Helper lemmas -/

theorem MoveX_fwd (n : ℕ) (m : Machine) :
    MoveX XFORWARD n m = ({ m with x := m.x + (n : ℤ) }, n) := rfl

theorem MoveX_bwd (n : ℕ) (m : Machine) :
    MoveX XBACKWARD n m = ({ m with x := m.x - (n : ℤ) }, n) := rfl

theorem MoveY_fwd (n : ℕ) (m : Machine) :
    MoveY YFORWARD n m = ({ m with y := m.y + (n : ℤ) }, n) := rfl

theorem MoveY_bwd (n : ℕ) (m : Machine) :
    MoveY YBACKWARD n m = ({ m with y := m.y - (n : ℤ) }, n) := rfl

theorem MoveZ_fwd (n : ℕ) (m : Machine) :
    MoveZ ZFORWARD n m = ({ m with z := m.z + (n : ℤ) }, n) := rfl

theorem MoveZ_bwd (n : ℕ) (m : Machine) :
    MoveZ ZBACKWARD n m = ({ m with z := m.z - (n : ℤ) }, n) := rfl

theorem MoveR_fwd (n : ℕ) (m : Machine) : MoveR RFORWARD n m = (m, n) := rfl

theorem MoveR_bwd (n : ℕ) (m : Machine) : MoveR RBACKWARD n m = (m, n) := rfl

theorem RGoTo_machine_unchanged (d rmin : ℤ) (m : Machine) : (RGoTo d rmin m).1 = m := by
  simp only [RGoTo, MoveR, RFORWARD]
  split_ifs <;> rfl

theorem XGoTo_reaches (m : Machine) (d : ℤ) (h0 : 0 ≤ d) (h1 : d ≤ (XMax : ℤ)) :
    (XGoTo d 0 m).1.x = d := by
  unfold XGoTo
  rw [if_pos ⟨h1, h0⟩]
  dsimp only
  split_ifs with h
  · rw [MoveX_fwd]
    dsimp only
    omega
  · rw [MoveX_bwd]
    dsimp only
    omega

theorem YGoTo_reaches (m : Machine) (d : ℤ) (h0 : 0 ≤ d) (h1 : d ≤ (YMax : ℤ)) :
    (YGoTo d 0 m).1.y = d := by
  unfold YGoTo
  rw [if_pos ⟨h1, h0⟩]
  dsimp only
  split_ifs with h
  · rw [MoveY_fwd]
    dsimp only
    omega
  · rw [MoveY_bwd]
    dsimp only
    omega

theorem ZGoTo_reaches (m : Machine) (d : ℤ) (h0 : 0 ≤ d) (h1 : d ≤ (ZMax : ℤ)) :
    (ZGoTo d 0 m).1.z = d := by
  unfold ZGoTo
  rw [if_pos ⟨h1, h0⟩]
  dsimp only
  split_ifs with h
  · rw [MoveZ_fwd]
    dsimp only
    omega
  · rw [MoveZ_bwd]
    dsimp only
    omega

theorem XGoTo_self (m : Machine) (h0 : 0 ≤ m.x) (h1 : m.x ≤ (XMax : ℤ)) :
    XGoTo m.x 0 m = (m, GoToResult.moved 0) := by
  unfold XGoTo
  rw [if_pos ⟨h1, h0⟩, sub_self, if_neg (lt_irrefl 0), MoveX_bwd]
  simp

theorem YGoTo_self (m : Machine) (h0 : 0 ≤ m.y) (h1 : m.y ≤ (YMax : ℤ)) :
    YGoTo m.y 0 m = (m, GoToResult.moved 0) := by
  unfold YGoTo
  rw [if_pos ⟨h1, h0⟩, sub_self, if_neg (lt_irrefl 0), MoveY_bwd]
  simp

theorem ZGoTo_self (m : Machine) (h0 : 0 ≤ m.z) (h1 : m.z ≤ (ZMax : ℤ)) :
    ZGoTo m.z 0 m = (m, GoToResult.moved 0) := by
  unfold ZGoTo
  rw [if_pos ⟨h1, h0⟩, sub_self, if_neg (lt_irrefl 0), MoveZ_bwd]
  simp

/-! ## Claim theorems: axis driver -/

/-- C7 (amended): MoveX, MoveY and MoveZ issue their step count and
update the tracked position by +stepCount forward and -stepCount
backward; MoveR issues its step count but leaves the whole tracked
state, in particular the rotation position, unchanged. -/
theorem moveAxis_updates_xyz_but_not_r (m : Machine) (n : ℕ) :
    (MoveX XFORWARD n m).1.x = m.x + n ∧ (MoveX XBACKWARD n m).1.x = m.x - n ∧
    (MoveX XFORWARD n m).2 = n ∧ (MoveX XBACKWARD n m).2 = n ∧
    (MoveY YFORWARD n m).1.y = m.y + n ∧ (MoveY YBACKWARD n m).1.y = m.y - n ∧
    (MoveY YFORWARD n m).2 = n ∧ (MoveY YBACKWARD n m).2 = n ∧
    (MoveZ ZFORWARD n m).1.z = m.z + n ∧ (MoveZ ZBACKWARD n m).1.z = m.z - n ∧
    (MoveZ ZFORWARD n m).2 = n ∧ (MoveZ ZBACKWARD n m).2 = n ∧
    (MoveR RFORWARD n m).1 = m ∧ (MoveR RBACKWARD n m).1 = m ∧
    (MoveR RFORWARD n m).2 = n ∧ (MoveR RBACKWARD n m).2 = n := by
  norm_num [MoveX, MoveY, MoveZ, MoveR,
    XFORWARD, XBACKWARD, YFORWARD, YBACKWARD, ZFORWARD, ZBACKWARD, RFORWARD, RBACKWARD]

/-- C7 (counterexample): a forward rotation of 5 steps from tracked
rotation position 0 leaves the tracked position at 0, not 0 + 5; the
claim that moveAxis updates every axis's position, rotation included,
is false. -/
theorem moveR_position_unchanged_counterexample :
    (MoveR RFORWARD 5 ⟨0, 0, 0, 0⟩).1.r = 0 ∧
    (MoveR RFORWARD 5 ⟨0, 0, 0, 0⟩).1.r ≠ (0 : ℤ) + 5 := by decide

/-- C6: for each of X, Y and Z, goTo with destination exactly AxisMax
succeeds (a move is issued and the position becomes AxisMax), while
destination AxisMax + 1 is rejected out of range with the machine
(hence the axis position) unchanged and no move issued. -/
theorem goTo_axisMax_boundary (m : Machine) :
    ((XGoTo (XMax : ℤ) 0 m).1.x = (XMax : ℤ) ∧
      (∃ p, (XGoTo (XMax : ℤ) 0 m).2 = GoToResult.moved p) ∧
      XGoTo ((XMax : ℤ) + 1) 0 m = (m, GoToResult.outOfRange)) ∧
    ((YGoTo (YMax : ℤ) 0 m).1.y = (YMax : ℤ) ∧
      (∃ p, (YGoTo (YMax : ℤ) 0 m).2 = GoToResult.moved p) ∧
      YGoTo ((YMax : ℤ) + 1) 0 m = (m, GoToResult.outOfRange)) ∧
    ((ZGoTo (ZMax : ℤ) 0 m).1.z = (ZMax : ℤ) ∧
      (∃ p, (ZGoTo (ZMax : ℤ) 0 m).2 = GoToResult.moved p) ∧
      ZGoTo ((ZMax : ℤ) + 1) 0 m = (m, GoToResult.outOfRange)) := by
  refine ⟨⟨XGoTo_reaches m _ (by norm_num [XMax]) le_rfl, ?_, ?_⟩,
    ⟨YGoTo_reaches m _ (by norm_num [YMax]) le_rfl, ?_, ?_⟩,
    ⟨ZGoTo_reaches m _ (by norm_num [ZMax]) le_rfl, ?_, ?_⟩⟩
  · simp only [XGoTo, MoveX, XFORWARD, XBACKWARD]
    rw [if_pos ⟨le_rfl, by norm_num [XMax]⟩]
    split_ifs <;> exact ⟨_, rfl⟩
  · simp only [XGoTo]
    rw [if_neg (by norm_num [XMax])]
  · simp only [YGoTo, MoveY, YFORWARD, YBACKWARD]
    rw [if_pos ⟨le_rfl, by norm_num [YMax]⟩]
    split_ifs <;> exact ⟨_, rfl⟩
  · simp only [YGoTo]
    rw [if_neg (by norm_num [YMax])]
  · simp only [ZGoTo, MoveZ, ZFORWARD, ZBACKWARD]
    rw [if_pos ⟨le_rfl, by norm_num [ZMax]⟩]
    split_ifs <;> exact ⟨_, rfl⟩
  · simp only [ZGoTo]
    rw [if_neg (by norm_num [ZMax])]

/-- C5 (amended): for X, Y and Z, goTo to an in-range destination twice
is idempotent (the second call issues a move of zero step pulses and
leaves the machine unchanged); for R, MoveR never updates the tracked
rotation position, so the second RGoTo call recomputes the same
distance and issues the same abs(destination - position) pulses again,
zero only when the destination already equals the tracked position. -/
theorem goTo_second_call (m : Machine) (d : ℤ) :
    (0 ≤ d → d ≤ (XMax : ℤ) →
      XGoTo d 0 ((XGoTo d 0 m).1) = ((XGoTo d 0 m).1, GoToResult.moved 0)) ∧
    (0 ≤ d → d ≤ (YMax : ℤ) →
      YGoTo d 0 ((YGoTo d 0 m).1) = ((YGoTo d 0 m).1, GoToResult.moved 0)) ∧
    (0 ≤ d → d ≤ (ZMax : ℤ) →
      ZGoTo d 0 ((ZGoTo d 0 m).1) = ((ZGoTo d 0 m).1, GoToResult.moved 0)) ∧
    (0 ≤ d → d ≤ (StepsPerRotation : ℤ) →
      RGoTo d 0 ((RGoTo d 0 m).1) = (m, GoToResult.moved (d - m.r).natAbs)) := by
  refine ⟨fun h0 h1 => ?_, fun h0 h1 => ?_, fun h0 h1 => ?_, fun h0 h1 => ?_⟩
  · have hx := XGoTo_reaches m d h0 h1
    have h2 := XGoTo_self (XGoTo d 0 m).1 (by rw [hx]; exact h0) (by rw [hx]; exact h1)
    rw [hx] at h2
    exact h2
  · have hy := YGoTo_reaches m d h0 h1
    have h2 := YGoTo_self (YGoTo d 0 m).1 (by rw [hy]; exact h0) (by rw [hy]; exact h1)
    rw [hy] at h2
    exact h2
  · have hz := ZGoTo_reaches m d h0 h1
    have h2 := ZGoTo_self (ZGoTo d 0 m).1 (by rw [hz]; exact h0) (by rw [hz]; exact h1)
    rw [hz] at h2
    exact h2
  · rw [RGoTo_machine_unchanged]
    unfold RGoTo
    rw [if_pos ⟨h1, h0⟩]
    dsimp only
    split_ifs with h
    · rw [MoveR_fwd]
      dsimp only
      have ht : (d - m.r).toNat = (d - m.r).natAbs := by omega
      rw [ht]
    · rw [MoveR_bwd]

/-- C5 (witness): concrete instance of goTo_second_call at destination
3 from the origin, second X call issues zero pulses, second R call
issues the same 3 pulses again. -/
theorem goTo_second_call_witness :
    (0 : ℤ) ≤ 3 ∧ (3 : ℤ) ≤ (XMax : ℤ) ∧ (3 : ℤ) ≤ (StepsPerRotation : ℤ) ∧
    XGoTo 3 0 ((XGoTo 3 0 ⟨0, 0, 0, 0⟩).1) = ((XGoTo 3 0 ⟨0, 0, 0, 0⟩).1, GoToResult.moved 0) ∧
    RGoTo 3 0 ((RGoTo 3 0 ⟨0, 0, 0, 0⟩).1) =
      (⟨0, 0, 0, 0⟩, GoToResult.moved ((3 : ℤ) - 0).natAbs) :=
  ⟨by decide, by decide, by decide,
    (goTo_second_call ⟨0, 0, 0, 0⟩ 3).1 (by decide) (by decide),
    (goTo_second_call ⟨0, 0, 0, 0⟩ 3).2.2.2 (by decide) (by decide)⟩

/-- C5 (counterexample): with tracked rotation position 0, RGoTo 5
followed by RGoTo 5 issues 5 pulses on the second call, not zero:
goTo is not idempotent on the rotation axis. -/
theorem rGoTo_not_idempotent_counterexample :
    (RGoTo 5 0 ((RGoTo 5 0 ⟨0, 0, 0, 0⟩).1)).2 = GoToResult.moved 5 ∧
    GoToResult.moved 5 ≠ GoToResult.moved 0 := by decide

/-- C8 (amended): RGoTo accepts destinations in [RMin, StepsPerRotation]
with the upper bound inclusive (destination StepsPerRotation itself is
accepted, not rejected) and rejects destinations outside; every
rotation move leaves the whole tracked state unchanged, so the
invariant 0 <= position < StepsPerRevolution is preserved only
vacuously, by the tracking never being updated. -/
theorem rGoTo_bounds_and_tracking (m : Machine) (d rmin : ℤ) :
    (RGoTo d rmin m).1 = m ∧
    (d ≤ (StepsPerRotation : ℤ) → rmin ≤ d →
      ∃ p, (RGoTo d rmin m).2 = GoToResult.moved p) ∧
    (((StepsPerRotation : ℤ) < d ∨ d < rmin) →
      RGoTo d rmin m = (m, GoToResult.outOfRange)) ∧
    (0 ≤ m.r → m.r < (StepsPerRotation : ℤ) →
      0 ≤ (RGoTo d rmin m).1.r ∧ (RGoTo d rmin m).1.r < (StepsPerRotation : ℤ)) := by
  refine ⟨RGoTo_machine_unchanged d rmin m, fun h1 h2 => ?_, fun h => ?_, fun h1 h2 => ?_⟩
  · simp only [RGoTo, MoveR, RFORWARD, RBACKWARD]
    rw [if_pos ⟨h1, h2⟩]
    split_ifs <;> exact ⟨_, rfl⟩
  · simp only [RGoTo]
    rw [if_neg (by omega)]
  · rw [RGoTo_machine_unchanged]
    exact ⟨h1, h2⟩

/-- C8 (witness): concrete instance of rGoTo_bounds_and_tracking at
destination 7 from tracked rotation position 3. -/
theorem rGoTo_bounds_and_tracking_witness :
    ((7 : ℤ) ≤ (StepsPerRotation : ℤ) ∧ (0 : ℤ) ≤ 7 ∧
      (0 : ℤ) ≤ (3 : ℤ) ∧ (3 : ℤ) < (StepsPerRotation : ℤ)) ∧
    (RGoTo 7 0 ⟨0, 0, 0, 3⟩).1 = ⟨0, 0, 0, 3⟩ ∧
    (∃ p, (RGoTo 7 0 ⟨0, 0, 0, 3⟩).2 = GoToResult.moved p) ∧
    (0 ≤ (RGoTo 7 0 ⟨0, 0, 0, 3⟩).1.r ∧
      (RGoTo 7 0 ⟨0, 0, 0, 3⟩).1.r < (StepsPerRotation : ℤ)) :=
  ⟨by decide,
    (rGoTo_bounds_and_tracking ⟨0, 0, 0, 3⟩ 7 0).1,
    (rGoTo_bounds_and_tracking ⟨0, 0, 0, 3⟩ 7 0).2.1 (by decide) (by decide),
    (rGoTo_bounds_and_tracking ⟨0, 0, 0, 3⟩ 7 0).2.2.2 (by decide) (by decide)⟩

/-- C8 (counterexample): destination StepsPerRotation itself (160) is
accepted by RGoTo (a move of 160 pulses is issued), contradicting the
claim that it is rejected as out of range. -/
theorem rGoTo_accepts_upper_bound_counterexample :
    (RGoTo (StepsPerRotation : ℤ) 0 ⟨0, 0, 0, 0⟩).2 = GoToResult.moved 160 ∧
    (RGoTo (StepsPerRotation : ℤ) 0 ⟨0, 0, 0, 0⟩).2 ≠ GoToResult.outOfRange := by decide

/-! ## Homing: bounded termination and outcome characterisation -/

theorem homeXInner_cases (press : ℕ → Bool) (i fuel : ℕ) :
    ∀ t m, (homeXInner press i fuel t m).1 = none ∨
      ((homeXInner press i fuel t m).1 = some i ∧ (homeXInner press i fuel t m).2.1.x = 0) := by
  induction fuel with
  | zero => intro t m; left; rfl
  | succ j ih =>
    intro t m
    unfold homeXInner
    dsimp only
    cases h : (CheckPress press t).1 with
    | false => simpa [h] using ih (CheckPress press t).2 (MoveX XBACKWARD 1 m).1
    | true => right; simp [h]

theorem homeXOuter_cases (press : ℕ → Bool) :
    ∀ fuel i t m, (homeXOuter press fuel i t m).1 = none ∨
      ∃ res, (homeXOuter press fuel i t m).1 = some res ∧ res < i + fuel ∧
        (homeXOuter press fuel i t m).2.1.x = 0 := by
  intro fuel
  induction fuel with
  | zero => intro i t m; left; rfl
  | succ k ih =>
    intro i t m
    unfold homeXOuter
    dsimp only
    cases h : (CheckPress press t).1 with
    | false =>
      rcases ih (i + 1) (CheckPress press t).2 (MoveX XBACKWARD 1 m).1 with h1 | ⟨res, h1, h2, h3⟩
      · left
        simpa [h] using h1
      · right
        exact ⟨res, by simpa [h] using h1, by omega, by simpa [h] using h3⟩
    | true =>
      rcases hin : homeXInner press i 350 (CheckPress press t).2 ((MoveX XFORWARD 300 m).1)
        with ⟨o1, m2, t2⟩
      have hspec := homeXInner_cases press i 350 (CheckPress press t).2 ((MoveX XFORWARD 300 m).1)
      rw [hin] at hspec
      cases o1 with
      | some res =>
        rcases hspec with h1 | ⟨h1, h2⟩
        · exact absurd h1 (by simp)
        · right
          have hres : res = i := by simpa using h1
          refine ⟨res, ?_, by omega, ?_⟩
          · simp [h, hin]
          · simpa [h, hin] using h2
      | none =>
        rcases ih (i + 1) t2 (MoveX XBACKWARD 1 m2).1 with h1 | ⟨res, h1, h2, h3⟩
        · left
          simpa [h, hin] using h1
        · right
          exact ⟨res, by simpa [h, hin] using h1, by omega, by simpa [h, hin] using h3⟩

/-- C9: HomeX's seek loop is bounded by XMax + 200 iterations (the axis
maximum range plus a safety margin); either the bound is exhausted
without a confirmed limit-switch trip and the call returns the failure
value none (the source's implicit None return, the caller-distinguishable
HomingTimeoutError outcome), or it returns some coarse-step count below
the bound with the axis position set to 0. -/
theorem homeX_terminates_bounded (press : ℕ → Bool) (m : Machine) :
    (HomeX press m).1 = none ∨
    ∃ steps, (HomeX press m).1 = some steps ∧ steps < XMax + 200 ∧
      (HomeX press m).2.1.x = 0 := by
  have hh := homeXOuter_cases press (XMax + 200) 0 0 m
  simpa [HomeX] using hh

/-! ## Grid generator: length and serpentine structure -/

theorem flatten_map_length {α β : Type} (l : List α) (f : α → List β) (n : ℕ)
    (h : ∀ a ∈ l, (f a).length = n) : ((l.map f).flatten).length = l.length * n := by
  induction l with
  | nil => simp
  | cons a l ih =>
    simp only [List.map_cons, List.flatten_cons, List.length_append, List.length_cons]
    rw [h a (by simp), ih (fun b hb => h b (by simp [hb]))]
    ring

theorem map_const_eq_replicate {α β : Type} (l : List α) (b : β) :
    l.map (fun _ => b) = List.replicate l.length b := by
  induction l with
  | nil => rfl
  | cons a l ih => simp [List.replicate_succ, ih]

theorem enum_map_fst {α : Type} (l : List α) (g : ℕ → List ℤ) :
    l.enum.map (fun p => g p.1) = (List.range l.length).map g := by
  rw [List.enum_eq_zip_range]
  have h1 : ((List.range l.length).zip l).map (fun p => g p.1) =
      (((List.range l.length).zip l).map Prod.fst).map g := by
    rw [List.map_map]
    rfl
  rw [h1, List.map_fst_zip _ _ (by simp)]

theorem flatten_replicate_flatten (a b : ℕ) (xs : List ℤ) :
    (List.replicate a ((List.replicate b xs).flatten)).flatten =
      (List.replicate (a * b) xs).flatten := by
  induction a with
  | zero => simp
  | succ a ih =>
    rw [List.replicate_succ, List.flatten_cons, ih, Nat.succ_mul, Nat.add_comm,
      List.replicate_add, List.flatten_append]

/-- C3: for valid (min, max, step) triples on every axis, DefineScan's
coordinate sequence has length equal to the product of the four
per-axis point counts, and its X list is the (rN * zN)-fold repetition
of the serpentine raster in which Y-row i carries xgrid forward for
even i and reversed for odd i. -/
theorem defineScan_product_length_serpentine
    (XMin XMax YMin YMax ZMin ZMax RMin RMax XSteps YSteps ZSteps RSteps : ℤ)
    (hx : 0 < XSteps) (hy : 0 < YSteps) (hz : 0 < ZSteps) (hr : 0 < RSteps) :
    (defineScan XMin XMax YMin YMax ZMin ZMax RMin RMax XSteps YSteps ZSteps RSteps).X.length =
      (arange XMin (XMax + 1) XSteps).length * (arange YMin (YMax + 1) YSteps).length *
        (arange ZMin (ZMax + 1) ZSteps).length * (arange RMin (RMax + 1) RSteps).length ∧
    (defineScan XMin XMax YMin YMax ZMin ZMax RMin RMax XSteps YSteps ZSteps RSteps).X =
      ((List.range ((arange RMin (RMax + 1) RSteps).length *
          (arange ZMin (ZMax + 1) ZSteps).length)).map (fun _ =>
        ((List.range ((arange YMin (YMax + 1) YSteps).length)).map (fun i =>
          if i % 2 = 0 then arange XMin (XMax + 1) XSteps
          else (arange XMin (XMax + 1) XSteps).reverse)).flatten)).flatten := by
  unfold defineScan
  dsimp only
  generalize arange XMin (XMax + 1) XSteps = xg
  generalize arange YMin (YMax + 1) YSteps = yg
  generalize arange ZMin (ZMax + 1) ZSteps = zg
  generalize arange RMin (RMax + 1) RSteps = rg
  have hxs : ((yg.enum.map fun p => if p.1 % 2 = 1 then xg.reverse else xg).flatten).length =
      yg.length * xg.length := by
    rw [flatten_map_length _ _ xg.length (fun a _ => by split_ifs <;> simp), List.enum_length]
  constructor
  · have hnxs : ((zg.map fun _ =>
        (yg.enum.map fun p => if p.1 % 2 = 1 then xg.reverse else xg).flatten).flatten).length =
        zg.length * (yg.length * xg.length) :=
      flatten_map_length _ _ _ (fun a _ => hxs)
    rw [flatten_map_length _ _ _ (fun a _ => hnxs)]
    ring
  · have e1 : (yg.enum.map fun p => if p.1 % 2 = 1 then xg.reverse else xg) =
        (List.range yg.length).map (fun i => if i % 2 = 0 then xg else xg.reverse) := by
      rw [enum_map_fst yg (fun i => if i % 2 = 1 then xg.reverse else xg)]
      apply List.map_congr_left
      intro i _
      rcases Nat.mod_two_eq_zero_or_one i with h | h <;> simp [h]
    simp only [e1, map_const_eq_replicate, List.length_range]
    exact flatten_replicate_flatten _ _ _

/-- C3 (witness): the 2 x 2 single-Z single-R grid with unit steps has
4 coordinates and X list [0, 1, 1, 0] (row 0 forward, row 1 reversed). -/
theorem defineScan_product_length_serpentine_witness :
    ((0 : ℤ) < 1 ∧ (0 : ℤ) < 1 ∧ (0 : ℤ) < 1 ∧ (0 : ℤ) < 1) ∧
    ((defineScan 0 1 0 1 0 0 0 0 1 1 1 1).X.length =
      (arange 0 (1 + 1) 1).length * (arange 0 (1 + 1) 1).length *
        (arange 0 (0 + 1) 1).length * (arange 0 (0 + 1) 1).length ∧
    (defineScan 0 1 0 1 0 0 0 0 1 1 1 1).X =
      ((List.range ((arange 0 (0 + 1) 1).length * (arange 0 (0 + 1) 1).length)).map (fun _ =>
        ((List.range ((arange 0 (1 + 1) 1).length)).map (fun i =>
          if i % 2 = 0 then arange 0 (1 + 1) 1
          else (arange 0 (1 + 1) 1).reverse)).flatten)).flatten) :=
  ⟨⟨by decide, by decide, by decide, by decide⟩,
    defineScan_product_length_serpentine 0 1 0 1 0 0 0 0 1 1 1 1
      (by decide) (by decide) (by decide) (by decide)⟩

/-- C4: defineScan(0, 2, 0, 1, 0, 0, 0, 0, 1, 1, 1, 1) yields exactly 6
coordinates whose (X, Y) projections in order are
(0,0), (1,0), (2,0), (2,1), (1,1), (0,1). -/
theorem defineScan_scenario_3x2 :
    (defineScan 0 2 0 1 0 0 0 0 1 1 1 1).X.length = 6 ∧
    (defineScan 0 2 0 1 0 0 0 0 1 1 1 1).X.zip (defineScan 0 2 0 1 0 0 0 0 1 1 1 1).Y =
      [(0, 0), (1, 0), (2, 0), (2, 1), (1, 1), (0, 1)] := by decide

/-- C10: the four coordinate lists returned by DefineScan always have
equal length (for valid positive step sizes), the invariant that lets
GridScan index all four lists with one loop index. -/
theorem defineScan_equal_lengths
    (XMin XMax YMin YMax ZMin ZMax RMin RMax XSteps YSteps ZSteps RSteps : ℤ)
    (hx : 0 < XSteps) (hy : 0 < YSteps) (hz : 0 < ZSteps) (hr : 0 < RSteps) :
    (defineScan XMin XMax YMin YMax ZMin ZMax RMin RMax XSteps YSteps ZSteps RSteps).X.length =
      (defineScan XMin XMax YMin YMax ZMin ZMax RMin RMax XSteps YSteps ZSteps RSteps).Y.length ∧
    (defineScan XMin XMax YMin YMax ZMin ZMax RMin RMax XSteps YSteps ZSteps RSteps).Y.length =
      (defineScan XMin XMax YMin YMax ZMin ZMax RMin RMax XSteps YSteps ZSteps RSteps).Z.length ∧
    (defineScan XMin XMax YMin YMax ZMin ZMax RMin RMax XSteps YSteps ZSteps RSteps).Z.length =
      (defineScan XMin XMax YMin YMax ZMin ZMax RMin RMax XSteps YSteps ZSteps RSteps).R.length := by
  unfold defineScan
  dsimp only
  generalize arange XMin (XMax + 1) XSteps = xg
  generalize arange YMin (YMax + 1) YSteps = yg
  generalize arange ZMin (ZMax + 1) ZSteps = zg
  generalize arange RMin (RMax + 1) RSteps = rg
  have hxs : ((yg.enum.map fun p => if p.1 % 2 = 1 then xg.reverse else xg).flatten).length =
      yg.length * xg.length := by
    rw [flatten_map_length _ _ xg.length (fun a _ => by split_ifs <;> simp), List.enum_length]
  have hys : ((yg.map fun yi => List.replicate xg.length yi).flatten).length =
      yg.length * xg.length :=
    flatten_map_length _ _ _ (fun a _ => by simp)
  have hnx : ((zg.map fun _ =>
      (yg.enum.map fun p => if p.1 % 2 = 1 then xg.reverse else xg).flatten).flatten).length =
      zg.length * (yg.length * xg.length) :=
    flatten_map_length _ _ _ (fun a _ => hxs)
  have hny : ((zg.map fun _ =>
      (yg.map fun yi => List.replicate xg.length yi).flatten).flatten).length =
      zg.length * (yg.length * xg.length) :=
    flatten_map_length _ _ _ (fun a _ => hys)
  have hnz : ((zg.map fun zi => List.replicate
      ((yg.enum.map fun p => if p.1 % 2 = 1 then xg.reverse else xg).flatten).length zi).flatten).length =
      zg.length * (yg.length * xg.length) :=
    flatten_map_length _ _ _ (fun a _ => by rw [List.length_replicate, hxs])
  refine ⟨?_, ?_, ?_⟩
  · rw [flatten_map_length _ _ _ (fun a _ => hnx), flatten_map_length _ _ _ (fun a _ => hny)]
  · rw [flatten_map_length _ _ _ (fun a _ => hny), flatten_map_length _ _ _ (fun a _ => hnz)]
  · rw [flatten_map_length _ _ _ (fun a _ => hnz),
      flatten_map_length _ _ _ (fun a _ => by rw [List.length_replicate, hnx])]

/-- C10 (witness): equal lengths at the trivial single-point grid with
unit steps. -/
theorem defineScan_equal_lengths_witness :
    ((0 : ℤ) < 1 ∧ (0 : ℤ) < 1 ∧ (0 : ℤ) < 1 ∧ (0 : ℤ) < 1) ∧
    ((defineScan 0 0 0 0 0 0 0 0 1 1 1 1).X.length =
        (defineScan 0 0 0 0 0 0 0 0 1 1 1 1).Y.length ∧
      (defineScan 0 0 0 0 0 0 0 0 1 1 1 1).Y.length =
        (defineScan 0 0 0 0 0 0 0 0 1 1 1 1).Z.length ∧
      (defineScan 0 0 0 0 0 0 0 0 1 1 1 1).Z.length =
        (defineScan 0 0 0 0 0 0 0 0 1 1 1 1).R.length) :=
  ⟨⟨by decide, by decide, by decide, by decide⟩,
    defineScan_equal_lengths 0 0 0 0 0 0 0 0 1 1 1 1
      (by decide) (by decide) (by decide) (by decide)⟩

/-! ## Scan engine: capture attempts, hangs, checkpoint and resume -/

theorem tryCapture_success (o : ℕ → CaptureResult) (c : ℕ)
    (h : o c = CaptureResult.success) : tryCapture o c = (CoordResult.captured, c + 1) := by
  simp [tryCapture, h]

theorem tryCapture_three_failures (o : ℕ → CaptureResult) (c : ℕ)
    (h1 : o c = CaptureResult.failure) (h2 : o (c + 1) = CaptureResult.failure)
    (h3 : o (c + 2) = CaptureResult.failure) :
    tryCapture o c = (CoordResult.exhausted, c + 3) := by
  simp [tryCapture, h1, h2, h3]

theorem scanLoop_captured (o : ℕ → CaptureResult) (F : ScanCtx) (x y z r : ℤ)
    (Xs Ys Zs Rs : List ℤ) (nf : ℕ) (fp : List String) (ftimes : List ℕ) (c c' : ℕ)
    (h : tryCapture o c = (CoordResult.captured, c')) :
    scanLoop o F (x :: Xs) (y :: Ys) (z :: Zs) (r :: Rs) nf fp ftimes c =
      Event.visit x y z r :: scanLoop o F Xs Ys Zs Rs nf fp ftimes c' := by
  simp only [scanLoop, h]

theorem scanLoop_hungSkip (o : ℕ → CaptureResult) (F : ScanCtx) (x y z r : ℤ)
    (Xs Ys Zs Rs : List ℤ) (nf : ℕ) (fp : List String) (ftimes : List ℕ) (c c' : ℕ)
    (h : tryCapture o c = (CoordResult.hungSkip, c')) :
    scanLoop o F (x :: Xs) (y :: Ys) (z :: Zs) (r :: Rs) nf fp ftimes c =
      Event.visit x y z r :: scanLoop o F Xs Ys Zs Rs nf fp ftimes c' := by
  simp only [scanLoop, h]

theorem scanLoop_exhausted (o : ℕ → CaptureResult) (F : ScanCtx) (x y z r : ℤ)
    (Xs Ys Zs Rs : List ℤ) (nf : ℕ) (fp : List String) (ftimes : List ℕ) (c c' : ℕ)
    (h : tryCapture o c = (CoordResult.exhausted, c')) :
    scanLoop o F (x :: Xs) (y :: Ys) (z :: Zs) (r :: Rs) nf fp ftimes c =
      [Event.visit x y z r,
       Event.checkpointWrite ⟨x :: Xs, y :: Ys, z :: Zs, r :: Rs⟩
         ⟨F.save_location, r, F.filetype, F.resolution, nf + 1, F.original_pics,
          F.original_time, F.original_locations,
          fp ++ [picName x y z r F.numRot F.filetype], ftimes ++ [c']⟩,
       Event.restart] := by
  simp only [scanLoop, h]

theorem scanLoop_success_run (o : ℕ → CaptureResult) (F : ScanCtx) :
    ∀ (k : ℕ) (Xs Ys Zs Rs : List ℤ) (nf : ℕ) (fp : List String) (ftimes : List ℕ) (c : ℕ),
      (∀ j, j < k → o (c + j) = CaptureResult.success) →
      k ≤ Xs.length → k ≤ Ys.length → k ≤ Zs.length → k ≤ Rs.length →
      scanLoop o F Xs Ys Zs Rs nf fp ftimes c =
        visitEvents (Xs.take k) (Ys.take k) (Zs.take k) (Rs.take k) ++
          scanLoop o F (Xs.drop k) (Ys.drop k) (Zs.drop k) (Rs.drop k) nf fp ftimes (c + k) := by
  intro k
  induction k with
  | zero =>
    intro Xs Ys Zs Rs nf fp ftimes c _ _ _ _ _
    simp [visitEvents]
  | succ k ih =>
    intro Xs Ys Zs Rs nf fp ftimes c hsucc hXl hYl hZl hRl
    cases Xs with
    | nil => exact absurd hXl (by simp)
    | cons x Xs' =>
      cases Ys with
      | nil => exact absurd hYl (by simp)
      | cons y Ys' =>
        cases Zs with
        | nil => exact absurd hZl (by simp)
        | cons z Zs' =>
          cases Rs with
          | nil => exact absurd hRl (by simp)
          | cons r Rs' =>
            rw [scanLoop_captured o F x y z r Xs' Ys' Zs' Rs' nf fp ftimes c (c + 1)
              (tryCapture_success o c (by simpa using hsucc 0 (by omega)))]
            rw [ih Xs' Ys' Zs' Rs' nf fp ftimes (c + 1)
              (fun j hj => by
                have hh := hsucc (j + 1) (by omega)
                have harg : c + (j + 1) = c + 1 + j := by omega
                rwa [harg] at hh)
              (by simp only [List.length_cons] at hXl; omega)
              (by simp only [List.length_cons] at hYl; omega)
              (by simp only [List.length_cons] at hZl; omega)
              (by simp only [List.length_cons] at hRl; omega)]
            have hc : c + 1 + k = c + (k + 1) := by omega
            simp only [List.take_succ_cons, List.drop_succ_cons, visitEvents, hc,
              List.cons_append]

theorem scanLoop_all_success (o : ℕ → CaptureResult) (F : ScanCtx)
    (ho : ∀ j, o j = CaptureResult.success) :
    ∀ (Xs Ys Zs Rs : List ℤ) (nf : ℕ) (fp : List String) (ftimes : List ℕ) (c : ℕ),
      scanLoop o F Xs Ys Zs Rs nf fp ftimes c =
        visitEvents Xs Ys Zs Rs ++ [Event.scanComplete F.original_pics nf] := by
  intro Xs
  induction Xs with
  | nil => intro Ys Zs Rs nf fp ftimes c; simp [scanLoop, visitEvents]
  | cons x Xs' ih =>
    intro Ys Zs Rs nf fp ftimes c
    cases Ys with
    | nil => simp [scanLoop, visitEvents]
    | cons y Ys' =>
      cases Zs with
      | nil => simp [scanLoop, visitEvents]
      | cons z Zs' =>
        cases Rs with
        | nil => simp [scanLoop, visitEvents]
        | cons r Rs' =>
          rw [scanLoop_captured o F x y z r Xs' Ys' Zs' Rs' nf fp ftimes c (c + 1)
            (tryCapture_success o c (ho c))]
          rw [ih Ys' Zs' Rs' nf fp ftimes (c + 1)]
          simp [visitEvents]

theorem visitEvents_length : ∀ (Xs Ys Zs Rs : List ℤ),
    Ys.length = Xs.length → Zs.length = Xs.length → Rs.length = Xs.length →
    (visitEvents Xs Ys Zs Rs).length = Xs.length := by
  intro Xs
  induction Xs with
  | nil => intro Ys Zs Rs _ _ _; cases Ys <;> cases Zs <;> cases Rs <;> simp [visitEvents]
  | cons x Xs' ih =>
    intro Ys Zs Rs hY hZ hR
    cases Ys with
    | nil => simp at hY
    | cons y Ys' =>
      cases Zs with
      | nil => simp at hZ
      | cons z Zs' =>
        cases Rs with
        | nil => simp at hR
        | cons r Rs' =>
          simp only [visitEvents, List.length_cons]
          rw [ih Ys' Zs' Rs' (by simpa using hY) (by simpa using hZ) (by simpa using hR)]

theorem visitEvents_no_checkpoint : ∀ (Xs Ys Zs Rs : List ℤ),
    (visitEvents Xs Ys Zs Rs).countP Event.isCheckpointWrite = 0 := by
  intro Xs
  induction Xs with
  | nil => intro Ys Zs Rs; cases Ys <;> cases Zs <;> cases Rs <;> simp [visitEvents]
  | cons x Xs' ih =>
    intro Ys Zs Rs
    cases Ys with
    | nil => simp [visitEvents]
    | cons y Ys' =>
      cases Zs with
      | nil => simp [visitEvents]
      | cons z Zs' =>
        cases Rs with
        | nil => simp [visitEvents]
        | cons r Rs' =>
          simp only [visitEvents, List.countP_cons]
          rw [ih Ys' Zs' Rs']
          simp [Event.isCheckpointWrite]

theorem gridScan_default_eq (o : ℕ → CaptureResult) (L : ScanLocations)
    (save : String) (t0 : ℕ) :
    gridScan o L StartConditions.default save t0 =
      scanLoop o ⟨save, ".jpg", "640x480", 30, L.R.dedup.length, L.X.length, t0, L⟩
        L.X L.Y L.Z L.R 0 [] [] 0 := rfl

theorem gridScan_resume_eq (o : ℕ → CaptureResult) (L : ScanLocations)
    (conds : Conditions) (save : String) (t0 : ℕ) :
    gridScan o L (StartConditions.resume conds) save t0 =
      scanLoop o ⟨conds.save_location, conds.filetype, conds.resolution, 0, L.R.dedup.length,
          conds.original_pics, conds.original_time, conds.original_locations⟩
        L.X L.Y L.Z L.R conds.num_failures conds.failed_pics conds.failure_times 0 := rfl

/-- C2 (amended): a capture attempt that exceeds its bounded wait
aborts the whole attempt sequence for its coordinate: whether the hang
is the first, second or third attempt, the loop ends in hungSkip, no
checkpoint or restart happens, the session counters are unchanged, and
the scan continues with the next coordinate (the coordinate's capture
is skipped, so a hang is not counted toward the 3-attempt budget). -/
theorem scanLoop_hang_aborts_and_skips (o : ℕ → CaptureResult) (F : ScanCtx)
    (x y z r : ℤ) (Xs Ys Zs Rs : List ℤ) (nf : ℕ) (fp : List String)
    (ftimes : List ℕ) (c : ℕ)
    (h : o c = CaptureResult.hang ∨
      (o c = CaptureResult.failure ∧ o (c + 1) = CaptureResult.hang) ∨
      (o c = CaptureResult.failure ∧ o (c + 1) = CaptureResult.failure ∧
        o (c + 2) = CaptureResult.hang)) :
    ∃ c', tryCapture o c = (CoordResult.hungSkip, c') ∧ c' ≤ c + 3 ∧
      scanLoop o F (x :: Xs) (y :: Ys) (z :: Zs) (r :: Rs) nf fp ftimes c =
        Event.visit x y z r :: scanLoop o F Xs Ys Zs Rs nf fp ftimes c' := by
  rcases h with h1 | ⟨h1, h2⟩ | ⟨h1, h2, h3⟩
  · exact ⟨c + 1, by simp [tryCapture, h1], by omega,
      scanLoop_hungSkip o F x y z r Xs Ys Zs Rs nf fp ftimes c (c + 1)
        (by simp [tryCapture, h1])⟩
  · exact ⟨c + 2, by simp [tryCapture, h1, h2], by omega,
      scanLoop_hungSkip o F x y z r Xs Ys Zs Rs nf fp ftimes c (c + 2)
        (by simp [tryCapture, h1, h2])⟩
  · exact ⟨c + 3, by simp [tryCapture, h1, h2, h3], by omega,
      scanLoop_hungSkip o F x y z r Xs Ys Zs Rs nf fp ftimes c (c + 3)
        (by simp [tryCapture, h1, h2, h3])⟩

/-- C2 (witness): with a clean failure then a hang at coordinate
(7, 8, 9, 5), the loop skips to the next coordinate with the session
unchanged. -/
theorem scanLoop_hang_aborts_and_skips_witness :
    (oracleHW 0 = CaptureResult.failure ∧ oracleHW (0 + 1) = CaptureResult.hang) ∧
    (∃ c', tryCapture oracleHW 0 = (CoordResult.hungSkip, c') ∧ c' ≤ 0 + 3 ∧
      scanLoop oracleHW ctxW (7 :: []) (8 :: []) (9 :: []) (5 :: []) 0 [] [] 0 =
        Event.visit 7 8 9 5 :: scanLoop oracleHW ctxW [] [] [] [] 0 [] [] c') :=
  ⟨⟨by decide, by decide⟩,
    scanLoop_hang_aborts_and_skips oracleHW ctxW 7 8 9 5 [] [] [] [] 0 [] [] 0
      (Or.inr (Or.inl ⟨by decide, by decide⟩))⟩

/-- C2 (counterexample): an oracle that hangs on every attempt (so
three hangs are on offer at the only coordinate) produces a completed
scan with the coordinate skipped and zero checkpoint writes and no
restart, refuting the claim that hangs are counted toward the
3-attempt budget and escalate to checkpoint-and-restart. -/
theorem gridScan_hang_completes_counterexample :
    gridScan (fun _ => CaptureResult.hang) ⟨[0], [0], [0], [0]⟩
        (StartConditions.default) "save" 0 =
      [Event.visit 0 0 0 0, Event.scanComplete 1 0] ∧
    (gridScan (fun _ => CaptureResult.hang) ⟨[0], [0], [0], [0]⟩
        (StartConditions.default) "save" 0).countP Event.isCheckpointWrite = 0 := by
  decide

/-- C1: on a fresh scan over a plan of length N whose first i
coordinates capture on the first attempt, three consecutive clean
failures at coordinate index i produce a trace with exactly one
checkpoint write, whose remaining plan is exactly the coordinate
suffix [i..N) (failing coordinate included) and whose conditions carry
num_failures = 1 (0 incremented) with the failure's picture name and
timestamp appended to the previously empty lists, followed directly by
the process restart; resuming from that checkpoint with a
failure-free oracle visits exactly N - i coordinates, not N. -/
theorem gridScan_three_failures_checkpoint_resume
    (L : ScanLocations) (i : ℕ) (o o' : ℕ → CaptureResult) (save : String) (t0 : ℕ)
    (xi yi zi ri : ℤ) (Xt Yt Zt Rt : List ℤ)
    (hlenY : L.Y.length = L.X.length) (hlenZ : L.Z.length = L.X.length)
    (hlenR : L.R.length = L.X.length)
    (hX : L.X.drop i = xi :: Xt) (hY : L.Y.drop i = yi :: Yt)
    (hZ : L.Z.drop i = zi :: Zt) (hR : L.R.drop i = ri :: Rt)
    (hpre : ∀ j, j < i → o j = CaptureResult.success)
    (hf1 : o i = CaptureResult.failure) (hf2 : o (i + 1) = CaptureResult.failure)
    (hf3 : o (i + 2) = CaptureResult.failure)
    (ho' : ∀ j, o' j = CaptureResult.success) :
    gridScan o L StartConditions.default save t0 =
      visitEvents (L.X.take i) (L.Y.take i) (L.Z.take i) (L.R.take i) ++
        [Event.visit xi yi zi ri,
         Event.checkpointWrite ⟨xi :: Xt, yi :: Yt, zi :: Zt, ri :: Rt⟩
           ⟨save, ri, ".jpg", "640x480", 1, L.X.length, t0, L,
            [picName xi yi zi ri L.R.dedup.length ".jpg"], [i + 3]⟩,
         Event.restart] ∧
    (gridScan o L StartConditions.default save t0).countP Event.isCheckpointWrite = 1 ∧
    gridScan o' ⟨xi :: Xt, yi :: Yt, zi :: Zt, ri :: Rt⟩
        (StartConditions.resume
          ⟨save, ri, ".jpg", "640x480", 1, L.X.length, t0, L,
           [picName xi yi zi ri L.R.dedup.length ".jpg"], [i + 3]⟩) save t0 =
      visitEvents (xi :: Xt) (yi :: Yt) (zi :: Zt) (ri :: Rt) ++
        [Event.scanComplete L.X.length 1] ∧
    (visitEvents (xi :: Xt) (yi :: Yt) (zi :: Zt) (ri :: Rt)).length = L.X.length - i := by
  have e1 := congrArg List.length hX
  have e2 := congrArg List.length hY
  have e3 := congrArg List.length hZ
  have e4 := congrArg List.length hR
  simp only [List.length_drop, List.length_cons] at e1 e2 e3 e4
  have hmain : gridScan o L StartConditions.default save t0 =
      visitEvents (L.X.take i) (L.Y.take i) (L.Z.take i) (L.R.take i) ++
        [Event.visit xi yi zi ri,
         Event.checkpointWrite ⟨xi :: Xt, yi :: Yt, zi :: Zt, ri :: Rt⟩
           ⟨save, ri, ".jpg", "640x480", 1, L.X.length, t0, L,
            [picName xi yi zi ri L.R.dedup.length ".jpg"], [i + 3]⟩,
         Event.restart] := by
    rw [gridScan_default_eq]
    rw [scanLoop_success_run o _ i L.X L.Y L.Z L.R 0 [] [] 0
      (fun j hj => by simpa using hpre j hj)
      (by omega) (by omega) (by omega) (by omega)]
    rw [hX, hY, hZ, hR]
    rw [show (0 : ℕ) + i = i from by omega]
    rw [scanLoop_exhausted o _ xi yi zi ri Xt Yt Zt Rt 0 [] [] i (i + 3)
      (tryCapture_three_failures o i hf1 hf2 hf3)]
    rfl
  refine ⟨hmain, ?_, ?_, ?_⟩
  · rw [hmain, List.countP_append, visitEvents_no_checkpoint]
    simp [List.countP_cons, Event.isCheckpointWrite]
  · rw [gridScan_resume_eq]
    rw [scanLoop_all_success o' _ ho']
  · rw [visitEvents_length (xi :: Xt) (yi :: Yt) (zi :: Zt) (ri :: Rt)
      (by simp only [List.length_cons]; omega)
      (by simp only [List.length_cons]; omega)
      (by simp only [List.length_cons]; omega)]
    simp only [List.length_cons]
    omega

/-- C1 (witness): concrete instance on the three-coordinate plan with
the failure at index 1: one checkpoint holding the two-coordinate
suffix and num_failures 1, and a clean resumed run visiting the 2
remaining coordinates. -/
theorem gridScan_three_failures_checkpoint_resume_witness :
    (planW.Y.length = planW.X.length ∧ planW.Z.length = planW.X.length ∧
      planW.R.length = planW.X.length ∧
      planW.X.drop 1 = 11 :: [12] ∧ planW.Y.drop 1 = 20 :: [20] ∧
      planW.Z.drop 1 = 0 :: [0] ∧ planW.R.drop 1 = 5 :: [5] ∧
      (∀ j, j < 1 → oracleW j = CaptureResult.success) ∧
      oracleW 1 = CaptureResult.failure ∧ oracleW (1 + 1) = CaptureResult.failure ∧
      oracleW (1 + 2) = CaptureResult.failure ∧
      (∀ j, oracleOk j = CaptureResult.success)) ∧
    (gridScan oracleW planW StartConditions.default "save" 0 =
      visitEvents (planW.X.take 1) (planW.Y.take 1) (planW.Z.take 1) (planW.R.take 1) ++
        [Event.visit 11 20 0 5,
         Event.checkpointWrite ⟨11 :: [12], 20 :: [20], 0 :: [0], 5 :: [5]⟩
           ⟨"save", 5, ".jpg", "640x480", 1, planW.X.length, 0, planW,
            [picName 11 20 0 5 planW.R.dedup.length ".jpg"], [1 + 3]⟩,
         Event.restart] ∧
     (gridScan oracleW planW StartConditions.default "save" 0).countP
        Event.isCheckpointWrite = 1 ∧
     gridScan oracleOk ⟨11 :: [12], 20 :: [20], 0 :: [0], 5 :: [5]⟩
        (StartConditions.resume
          ⟨"save", 5, ".jpg", "640x480", 1, planW.X.length, 0, planW,
           [picName 11 20 0 5 planW.R.dedup.length ".jpg"], [1 + 3]⟩) "save" 0 =
       visitEvents (11 :: [12]) (20 :: [20]) (0 :: [0]) (5 :: [5]) ++
         [Event.scanComplete planW.X.length 1] ∧
     (visitEvents (11 :: [12]) (20 :: [20]) (0 :: [0]) (5 :: [5])).length =
       planW.X.length - 1) :=
  ⟨⟨by decide, by decide, by decide, by decide, by decide, by decide, by decide,
    by decide, by decide, by decide, by decide, fun _ => rfl⟩,
    gridScan_three_failures_checkpoint_resume planW 1 oracleW oracleOk "save" 0
      11 20 0 5 [12] [20] [0] [5]
      (by decide) (by decide) (by decide) (by decide) (by decide) (by decide) (by decide)
      (by decide) (by decide) (by decide) (by decide) (fun _ => rfl)⟩
